import Mathlib

/-!
Verification development for the Proactive-AIoT-Assistant THINK core
(`src/THINK_module/think_orchestrator.py`, `src/THINK_module/memory.py`,
`src/common/schemas.py`).

The Python code is shallowly embedded: Pydantic models become structures,
JSON parameter values become the inductive `Value` (numbers are modelled as
`Int`; the repository's capability files use integer bounds), Python dicts
become association lists with first-match lookup, and code paths that can
raise an exception return `Option`/`Except` (`Option.none` / `.error`
standing for the raised exception). External collaborators (the LLM chains,
the Chroma vector store, the wall clock) are modelled as explicit inputs:
an outcome datum for each fallible external call and an explicit `now`
argument for `datetime` reads.
-/

/-- A JSON-ish runtime value as carried in `params` dicts. Numbers are
modelled as `Int` (the capability files and demo contexts use integers). -/
inductive Value where
  | num (n : Int)
  | str (s : String)
deriving DecidableEq, Repr

/-- Python `str(v)` for a `Value` (used by the `HH:MM` format check, which
calls `re.match` on `str(param_value)`). -/
def Value.pyStr : Value → String
  | .num n => toString n
  | .str s => s

/-- A capability parameter spec, as read from the devices JSON: a list
(numeric range or string enumeration), a bare string (format token), or any
other shape (nested dict etc., `other`). -/
inductive ParamSpec where
  | vlist (xs : List Value)
  | vstr (s : String)
  | other
deriving DecidableEq, Repr

/-- Char-list prefix test (Boolean). -/
def charsPrefixOf : List Char → List Char → Bool
  | [], _ => true
  | _ :: _, [] => false
  | a :: as, b :: bs => decide (a = b) && charsPrefixOf as bs

/-- Char-list infix test (Boolean): `pat` occurs contiguously in `s`. -/
def charsInfixOf (pat : List Char) : List Char → Bool
  | [] => pat.isEmpty
  | b :: bs => charsPrefixOf pat (b :: bs) || charsInfixOf pat bs

/-- Python substring test `pat in s`. -/
def strContains (s pat : String) : Bool :=
  charsInfixOf pat.toList s.toList

/-- `re.match(r"^\d{2}:\d{2}$", s)` specialised to ASCII digit strings:
exactly two digits, a colon, two digits. -/
def matchesHHMM (s : String) : Bool :=
  match s.toList with
  | [a, b, c, d, e] => a.isDigit && b.isDigit && decide (c = ':') && d.isDigit && e.isDigit
  | _ => false

/-- First-match lookup in an association list (a Python dict: membership
test `k in d` followed by `d[k]`). -/
def dictGet {α : Type} (d : List (String × α)) (k : String) : Option α :=
  (d.find? (fun p => decide (p.1 = k))).map (·.2)

/-- The `capabilities` dict of one device, in the devices.json shape:
`{"functions": [...], "parameters": {...}}` (missing keys default to
empty, per `caps.get("functions", [])` / `caps.get("parameters", {})`). -/
structure Capabilities where
  functions : List String
  parameters : List (String × ParamSpec)
deriving DecidableEq, Repr

/-- `common.schemas.DeviceState`. `capabilities = Option.none` models a
falsy capabilities dict (`None` or `{}`), the case `if not caps` catches. -/
structure DeviceState where
  id : String
  name : Option String := Option.none
  «on» : Bool
  params : List (String × Value) := []
  capabilities : Option Capabilities := Option.none
deriving DecidableEq, Repr

/-- `common.schemas.ActionCommand`. -/
structure ActionCommand where
  device_id : String
  command : String
  params : List (String × Value) := []
deriving DecidableEq, Repr

/-- `common.schemas.BiometricContext` (confidence fields are rationals,
standing for Python floats in [0,1]). -/
structure BiometricContext where
  heart_rate : Option ℚ := Option.none
  activity_status : Option String := Option.none
  stress_level : Option String := Option.none
  calories_today : Option ℚ := Option.none
  confidence : Option ℚ := some 1
deriving DecidableEq, Repr

/-- `common.schemas.LocationContext`. -/
structure LocationContext where
  place : Option String := Option.none
  travel_eta_min : Option Int := Option.none
  confidence : Option ℚ := some 1
deriving DecidableEq, Repr

/-- `common.schemas.ScheduleContext` (the meeting time, a datetime, is an
abstract instant modelled as `Int`). -/
structure ScheduleContext where
  next_meeting_time : Option Int := Option.none
  free_now : Option Bool := Option.none
deriving DecidableEq, Repr

/-- `common.schemas.EnvironmentContext`. -/
structure EnvironmentContext where
  room_temp : Option ℚ := Option.none
  air_quality : Option String := Option.none
  occupancy : Option String := Option.none
  occupancy_confidence : Option ℚ := some 1
deriving DecidableEq, Repr

/-- `common.schemas.ContextPacket` (`raw` is an opaque auxiliary dict). -/
structure ContextPacket where
  timestamp : Int
  biometric : Option BiometricContext := Option.none
  location : Option LocationContext := Option.none
  schedule : Option ScheduleContext := Option.none
  environment : Option EnvironmentContext := Option.none
  devices : List DeviceState := []
  raw : List (String × Value) := []
deriving DecidableEq, Repr

/-- `common.schemas.SuggestionSchema`. `confidence` is `Option ℚ`
(Pydantic `Optional[float]`, default `0.5`, constrained to [0,1]). -/
structure SuggestionSchema where
  should_suggest : Bool
  suggestion_text : Option String := Option.none
  reason : Option String := Option.none
  action : Option ActionCommand := Option.none
  confidence : Option ℚ := some (1/2)
deriving DecidableEq, Repr

namespace SafetyChecker

/-- `SafetyChecker.SAFE_DEVICE_BLACKLIST` (a Python set; modelled as a
list, iteration order is irrelevant to the any-match loop). -/
def SAFE_DEVICE_BLACKLIST : List String :=
  ["router", "refrigerator", "security_camera"]

/-- The device the dict comprehension `{d.id: d for d in devices}` maps an
id to: the LAST device in the list with that id (later entries of a dict
comprehension overwrite earlier ones). -/
def lookupDevice (devices : List DeviceState) (id : String) : Option DeviceState :=
  (devices.filter (fun d => decide (d.id = id))).getLast?

/-- Python `a <= b` on runtime values: defined on two numbers or two
strings, a `TypeError` (here `Option.none`) across types. -/
def pyLe : Value → Value → Option Bool
  | .num a, .num b => some (decide (a ≤ b))
  | .str a, .str b => some (decide (a ≤ b))
  | _, _ => Option.none

/-- The per-parameter body of the loop in `SafetyChecker.is_action_safe`
for one DECLARED parameter: `some true` = this parameter passes (or its
spec shape is skipped), `some false` = the function returns `False`,
`Option.none` = a `TypeError` escapes (chained comparison
`min_v <= param_value <= max_v` where `max_v` is not a number and the
first comparison succeeded). -/
def paramCheck (spec : ParamSpec) (v : Value) : Option Bool :=
  match spec with
  | .vlist [] => some true
  | .vlist (first :: rest) =>
    match first with
    | .num lo =>
      match rest with
      | [hi] =>
        match v with
        | .num n =>
          if lo ≤ n then
            match pyLe (.num n) hi with
            | some b => some b
            | Option.none => Option.none
          else
            some false
        | .str _ => some false
      | _ => some true
    | .str _ => some (decide (v ∈ first :: rest))
  | .vstr fmt =>
    if fmt = "HH:MM" then some (matchesHHMM v.pyStr) else some true
  | .other => some true

/-- The parameter loop of `is_action_safe` over `action.params.items()`,
with the dict of declared parameter specs; undeclared parameters are
skipped (`continue`). -/
def checkParams (avail : List (String × ParamSpec)) :
    List (String × Value) → Option Bool
  | [] => some true
  | (name, v) :: rest =>
    match dictGet avail name with
    | Option.none => checkParams avail rest
    | some spec =>
      match paramCheck spec v with
      | Option.none => Option.none
      | some false => some false
      | some true => checkParams avail rest

/-- `SafetyChecker.is_action_safe`. `some b` is a normal boolean return,
`Option.none` an escaping `TypeError` from a malformed numeric spec. -/
def is_action_safe (action : ActionCommand) (devices : List DeviceState) :
    Option Bool :=
  match lookupDevice devices action.device_id with
  | Option.none => some false
  | some dev =>
    if SAFE_DEVICE_BLACKLIST.any (fun bad => strContains action.device_id bad) then
      some false
    else
      match dev.capabilities with
      | Option.none => some false
      | some caps =>
        if action.command ∈ caps.functions then
          checkParams caps.parameters action.params
        else
          some false

end SafetyChecker

/-- `ProactivityBudget` (`think_orchestrator.py`): cooldown threshold and the
last-allowed instant, both in one abstract time unit (`Int` instants stand
for `datetime.utcnow()` reads; the threshold is `timedelta(minutes=cooldown_minutes)`
expressed in the same unit). -/
structure ProactivityBudget where
  cooldown_threshold : Int
  last_suggestion_time : Option Int := Option.none
deriving DecidableEq, Repr

/-- `ProactivityBudget.allow`, with the clock read `now = datetime.utcnow()`
passed explicitly. Returns the boolean result and the updated budget. -/
def ProactivityBudget.allow (b : ProactivityBudget) (now : Int) :
    Bool × ProactivityBudget :=
  match b.last_suggestion_time with
  | Option.none => (true, { b with last_suggestion_time := some now })
  | some last =>
    if b.cooldown_threshold ≤ now - last then
      (true, { b with last_suggestion_time := some now })
    else
      (false, b)

/-- A candidate action dict produced by `DecisionGraph.candidates_from_context`. -/
structure Candidate where
  action_type : String
  target_devices : List String
  reason : String
deriving DecidableEq, Repr

namespace DecisionGraph

/-- `DecisionGraph.candidates_from_context`: the three deterministic rules,
appended in declaration order. -/
def candidates_from_context (ctx : ContextPacket) : List Candidate :=
  let cands1 : List Candidate :=
    match ctx.environment with
    | some env =>
      if env.occupancy = some "vacant" then
        let on_devices :=
          (ctx.devices.filter (fun d => d.«on» && strContains d.id "light")).map (·.id)
        if on_devices.isEmpty then []
        else
          [{ action_type := "turn_off_room_lights",
             target_devices := on_devices,
             reason := "room appears empty and lights are on" }]
      else []
    | Option.none => []
  let cands2 : List Candidate :=
    match ctx.biometric, ctx.location with
    | some bio, some loc =>
      if bio.activity_status = some "post_workout" ∧ loc.place = some "home" then
        let water_devices :=
          (ctx.devices.filter
            (fun d => strContains d.id "geyser" || strContains d.id "water_heater")).map (·.id)
        if water_devices.isEmpty then []
        else
          [{ action_type := "prepare_bath",
             target_devices := water_devices,
             reason := "user finished workout and is at home" }]
      else []
    | _, _ => []
  let cands3 : List Candidate :=
    match ctx.biometric with
    | some bio =>
      if bio.stress_level = some "high" then
        let relax_targets :=
          (ctx.devices.filter
            (fun d => strContains d.id "light" || strContains d.id "speaker")).map (·.id)
        if relax_targets.isEmpty then []
        else
          [{ action_type := "relaxation_routine",
             target_devices := relax_targets,
             reason := "user shows high stress" }]
      else []
    | Option.none => []
  cands1 ++ cands2 ++ cands3

end DecisionGraph

namespace LangchainLLMClient

/-- How the awaited pass-2 LCEL chain (`self.pass2_chain.ainvoke`, prompt →
LLM → `PydanticOutputParser`) terminates: a parsed `SuggestionSchema`, or an
exception (LLM call failure or output that fails to parse/validate). -/
inductive ChainOutcome where
  | parsed (s : SuggestionSchema)
  | raised
deriving DecidableEq, Repr

/-- The dict `pass2_structured` returns: on success, `parsed.model_dump()`
(all five keys present); on any exception, the literal fallback dict
`should_suggest: False, reason: "llm_parse_failed"` (no other keys). -/
inductive Pass2Dict where
  | full (s : SuggestionSchema)
  | parseFailDict
deriving DecidableEq, Repr

/-- `LangchainLLMClient.pass2_structured`: run the chain, catching every
exception into the fallback dict. -/
def pass2_structured : ChainOutcome → Pass2Dict
  | .parsed s => .full s
  | .raised => .parseFailDict

end LangchainLLMClient

/-- Pydantic construction `SuggestionSchema(**d)` on the two dict shapes
`pass2_structured` can return: missing keys take the schema defaults
(`suggestion_text = None`, `reason = None`, `action = None`,
`confidence = 0.5`); a present confidence outside [0,1] raises
`ValidationError` (the `.error` case). -/
def SuggestionSchema.validate :
    LangchainLLMClient.Pass2Dict → Except Unit SuggestionSchema
  | .full s =>
    match s.confidence with
    | some q => if 0 ≤ q ∧ q ≤ 1 then .ok s else .error ()
    | Option.none => .ok s
  | .parseFailDict => .ok { should_suggest := false, reason := some "llm_parse_failed" }

namespace ThinkOrchestrator

/-- How step 4 of `process_context` observes the awaited
`pass2_structured` call: it returned a dict built from a chain outcome, or
an exception escaped the call itself (the `except Exception` branch). -/
inductive Pass2Call where
  | returned (chain : LangchainLLMClient.ChainOutcome)
  | raised
deriving DecidableEq, Repr

/-- Step 4 of `process_context`: build the working suggestion.
`ValidationError` from `SuggestionSchema(**pass2_out)` gives the
`validation_failed` deny; any other exception gives the `llm_error` deny. -/
def pass2_suggestion : Pass2Call → SuggestionSchema
  | .returned chain =>
    match SuggestionSchema.validate (LangchainLLMClient.pass2_structured chain) with
    | .ok s => s
    | .error _ =>
      { should_suggest := false, reason := some "validation_failed",
        confidence := some 0 }
  | .raised =>
    { should_suggest := false, reason := some "llm_error", confidence := some 0 }

/-- Step 5 of `process_context`: if the suggestion carries an action, run
`SafetyChecker.is_action_safe`; on `False`, force `should_suggest := false`
and overwrite the reason. `Option.none` propagates an escaped `TypeError`
from the checker. -/
def apply_safety (s : SuggestionSchema) (devices : List DeviceState) :
    Option SuggestionSchema :=
  match s.action with
  | some a =>
    match SafetyChecker.is_action_safe a devices with
    | Option.none => Option.none
    | some true => some s
    | some false =>
      some { s with should_suggest := false,
                    reason := some "Action failed safety check." }
  | Option.none => some s

/-- Step 6 of `process_context`:
`if suggestion.should_suggest and not self.proactivity_budget.allow()`.
The returned `Bool` records whether `allow()` was evaluated at all
(Python `and` short-circuits when `should_suggest` is falsy). -/
def apply_budget (s : SuggestionSchema) (b : ProactivityBudget) (now : Int) :
    SuggestionSchema × ProactivityBudget × Bool :=
  if s.should_suggest then
    match b.allow now with
    | (true, b2) => (s, b2, true)
    | (false, b2) =>
      ({ s with should_suggest := false,
                reason := some "Proactivity budget exhausted." }, b2, true)
  else (s, b, false)

end ThinkOrchestrator

namespace ChromaStore

/-- A Python value stored in a metadata dict: a primitive
(str/int/float/bool/None) or any other object (dict/list/...), the latter
carrying its JSON serialisation. -/
inductive MetaValue where
  | str (s : String)
  | int (n : Int)
  | float (q : ℚ)
  | bool (b : Bool)
  | null
  | obj (jsonRepr : String)
deriving DecidableEq, Repr

/-- The sanitisation loop of `add_document`: primitives and `None` pass
through; any other value is serialised (`json.dumps`, falling back to
`str`). -/
def sanitizeMeta (m : List (String × MetaValue)) : List (String × MetaValue) :=
  m.map fun p =>
    match p.2 with
    | .obj j => (p.1, .str j)
    | v => (p.1, v)

/-- Python dict assignment `d[k] = v` on an association list. -/
def dictSet (d : List (String × MetaValue)) (k : String) (v : MetaValue) :
    List (String × MetaValue) :=
  if (d.find? (fun p => decide (p.1 = k))).isSome then
    d.map (fun p => if p.1 = k then (k, v) else p)
  else d ++ [(k, v)]

/-- The Chroma collection contents: stored (id, document text, metadata)
rows, in insertion order. -/
structure Collection where
  docs : List (String × String × List (String × MetaValue)) := []
deriving DecidableEq, Repr

/-- The exceptions `add_document` can raise: the `TypeError` from
subscripting a still-`None` `safe_meta`, or whatever `collection.add`
raised (logged and re-raised). -/
inductive PyError where
  | typeError
  | chromaError
deriving DecidableEq, Repr

/-- `ChromaStore.add_document`. External effects appear as inputs: `isDup`
is the verdict of `_is_duplicate` (which consults the embedding service and
the Chroma query and never raises — its own failures return `False`);
`addFails` says whether `collection.add` raises; `docId` is the fresh
`uuid.uuid4()`; `now` the `datetime.now().isoformat()` timestamp string.
(`get_ollama_embedding` never raises: it falls back to a naive vector.) -/
def add_document (isDup addFails : Bool) (docId now text : String)
    (metadata : Option (List (String × MetaValue))) (col : Collection) :
    Except PyError String × Collection :=
  if isDup then (.ok "DUPLICATE_SKIPPED", col)
  else
    let safe_meta : Option (List (String × MetaValue)) :=
      match metadata with
      | some m => if m.isEmpty then Option.none else some (sanitizeMeta m)
      | Option.none => Option.none
    match safe_meta with
    | Option.none => (.error .typeError, col)
    | some m =>
      let m2 := dictSet m "timestamp" (.str now)
      if addFails then (.error .chromaError, col)
      else (.ok docId, ⟨col.docs ++ [(docId, text, m2)]⟩)

end ChromaStore

/-- Python `x or default` for an optional string (`None` and `""` are falsy). -/
def pyOrStr (v : Option String) (dflt : String) : String :=
  match v with
  | some s => if s = "" then dflt else s
  | Option.none => dflt

/-- Python f-string rendering of an optional string (`None` prints as "None"). -/
def pyFmtOpt : Option String → String
  | some s => s
  | Option.none => "None"

/-- JSON rendering of a parameter value. -/
def Value.jsonRepr : Value → String
  | .num n => toString n
  | .str s => "\"" ++ s ++ "\""

/-- JSON rendering of a params dict. -/
def paramsJson (ps : List (String × Value)) : String :=
  "\x7b" ++ String.intercalate ", "
    (ps.map fun p => "\"" ++ p.1 ++ "\": " ++ p.2.jsonRepr) ++ "\x7d"

/-- `ActionCommand.model_dump()` as serialised into metadata by the
sanitisation loop. -/
def ActionCommand.dumpJson (a : ActionCommand) : String :=
  "\x7b\"device_id\": \"" ++ a.device_id ++ "\", \"command\": \"" ++
    a.command ++ "\", \"params\": " ++ paramsJson a.params ++ "\x7d"

namespace ThinkOrchestrator

/-- A `None` reason maps to metadata `None`, kept as-is by sanitisation. -/
def metaOfOptStr : Option String → ChromaStore.MetaValue
  | some s => .str s
  | Option.none => .null

/-- `ThinkOrchestrator.store_user_confirmation` (the memory write on user
feedback). `isDup`, `addFails`, `docId`, `now` are the external-effect
inputs threaded to `add_document`; an `.error` result is the exception the
un-guarded `add_document` call propagates to the caller. -/
def store_user_confirmation (isDup addFails : Bool) (docId now : String)
    (suggestion : SuggestionSchema) (ctx : ContextPacket) (accepted : Bool)
    (col : ChromaStore.Collection) :
    Except ChromaStore.PyError Unit × ChromaStore.Collection :=
  let activity :=
    match ctx.biometric with
    | some bio => pyOrStr bio.activity_status "unknown"
    | Option.none => "unknown"
  if accepted then
    match suggestion.action with
    | some a =>
      let fact_text :=
        "User ACCEPTED this action: " ++ pyFmtOpt suggestion.suggestion_text ++
          " (Action: " ++ a.command ++ " " ++ a.device_id ++ ")"
      let meta : List (String × ChromaStore.MetaValue) :=
        [("type", .str "accepted_action"),
         ("accepted", .bool true),
         ("action", .obj a.dumpJson),
         ("context_activity", .str activity)]
      let r := ChromaStore.add_document isDup addFails docId now fact_text (some meta) col
      (r.1.map (fun _ => ()), r.2)
    | Option.none => (.ok (), col)
  else
    let fact_text :=
      "User REJECTED this suggestion: " ++ pyFmtOpt suggestion.suggestion_text
    let meta : List (String × ChromaStore.MetaValue) :=
      [("type", .str "rejected_action"),
       ("accepted", .bool false),
       ("reason", metaOfOptStr suggestion.reason),
       ("context_activity", .str activity)]
    let r := ChromaStore.add_document isDup addFails docId now fact_text (some meta) col
    (r.1.map (fun _ => ()), r.2)

end ThinkOrchestrator

/-!
## Specification-side definitions

These definitions follow the words of the spec/claims (not the code); they
exist to be compared against the code-derived definitions above.
-/

/-- Kernel-computable lexicographic comparison of char lists (the order the
spec's word "sorted" refers to for device-id strings). -/
def charsLe : List Char → List Char → Bool
  | [], _ => true
  | _ :: _, [] => false
  | a :: as, b :: bs => if a = b then charsLe as bs else decide (a < b)

/-- Lexicographic `≤` on strings, by code points. -/
def strLe (a b : String) : Bool :=
  charsLe a.toList b.toList

/-- Insertion into a `strLe`-sorted list. -/
def insertStr (x : String) : List String → List String
  | [] => [x]
  | y :: ys => if strLe x y then x :: y :: ys else y :: insertStr x ys

/-- Insertion sort of strings by `strLe`. -/
def sortStrings : List String → List String
  | [] => []
  | x :: xs => insertStr x (sortStrings xs)

/-- Claim C4's words: the SORTED SET of ids of devices that are on and whose
id contains "light" (deduplicated, lexicographically sorted). Spec-side
definition, to be compared with the Rule Engine's actual target list. -/
def specSortedLightTargets (ctx : ContextPacket) : List String :=
  sortStrings
    (((ctx.devices.filter (fun d => d.«on» && strContains d.id "light")).map (·.id)).dedup)

/-- Well-formedness of one capability parameter spec, implicit in claim C1's
"capability specs populated" (the devices.json shape): a numeric-range pair
carries a numeric upper bound. (On a malformed pair such as `[0, "x"]` the
Python checker can raise `TypeError` instead of returning a boolean.) -/
def SpecWF : ParamSpec → Prop
  | .vlist [Value.num _, hi] => ∃ h : Int, hi = Value.num h
  | _ => True

/-- All parameter specs of a device's capabilities are well-formed. -/
def DeviceWF (d : DeviceState) : Prop :=
  ∀ caps, d.capabilities = some caps → ∀ p ∈ caps.parameters, SpecWF p.2

/-- Claim C1's words for one DECLARED parameter: a numeric `[min, max]` pair
constrains the value to a numeric one within the inclusive range; a string
enumeration constrains it to exact membership; the `"HH:MM"` format token
constrains its string form to the two-digit:two-digit pattern; any other
declared shape imposes no constraint. -/
def DeclaredOk (spec : ParamSpec) (v : Value) : Prop :=
  match spec with
  | .vlist [Value.num lo, Value.num hi] =>
    match v with
    | .num n => lo ≤ n ∧ n ≤ hi
    | .str _ => False
  | .vlist (Value.str s :: rest) => v ∈ Value.str s :: rest
  | .vstr fmt => fmt = "HH:MM" → matchesHHMM v.pyStr = true
  | _ => True

/-- Claim C1's words for the whole Policy Validator verdict: the command's
device id appears in the device list, contains no blacklisted substring,
the (last-bound) device with that id has a truthy capability spec, the
command is among its supported functions, and every supplied parameter that
is declared in the spec satisfies its declared constraint. -/
def SpecSafe (action : ActionCommand) (devices : List DeviceState) : Prop :=
  (∃ d ∈ devices, d.id = action.device_id) ∧
  (∀ bad ∈ SafetyChecker.SAFE_DEVICE_BLACKLIST, strContains action.device_id bad = false) ∧
  (∃ dev caps, SafetyChecker.lookupDevice devices action.device_id = some dev ∧
    dev.capabilities = some caps ∧
    action.command ∈ caps.functions ∧
    ∀ p ∈ action.params, ∀ spec, dictGet caps.parameters p.1 = some spec →
      DeclaredOk spec p.2)

/-!
## Helper lemmas
-/

theorem lookupDevice_isSome_iff (devices : List DeviceState) (id : String) :
    (SafetyChecker.lookupDevice devices id).isSome ↔ ∃ d ∈ devices, d.id = id := by
  unfold SafetyChecker.lookupDevice
  rw [List.getLast?_isSome]
  constructor
  · intro hne
    have : ¬ ∀ d ∈ devices, ¬ (decide (d.id = id)) = true := by
      intro hall
      exact hne (List.filter_eq_nil_iff.mpr hall)
    push_neg at this
    obtain ⟨d, hd, hdec⟩ := this
    exact ⟨d, hd, of_decide_eq_true (by simpa using hdec)⟩
  · rintro ⟨d, hd, hid⟩ hnil
    have := List.filter_eq_nil_iff.mp hnil d hd
    simp [hid] at this

theorem lookupDevice_mem {devices : List DeviceState} {id : String} {d : DeviceState}
    (h : SafetyChecker.lookupDevice devices id = some d) : d ∈ devices ∧ d.id = id := by
  unfold SafetyChecker.lookupDevice at h
  have hmem := List.mem_of_getLast?_eq_some h
  rw [List.mem_filter] at hmem
  exact ⟨hmem.1, of_decide_eq_true hmem.2⟩

/-- On a well-formed spec, the code's per-parameter check accepts exactly
the values satisfying the claim-side declared constraint. -/
theorem paramCheck_eq_some_true_iff (spec : ParamSpec) (v : Value) (hwf : SpecWF spec) :
    SafetyChecker.paramCheck spec v = some true ↔ DeclaredOk spec v := by
  match spec with
  | .vlist [] => simp [SafetyChecker.paramCheck, DeclaredOk]
  | .vlist (Value.num lo :: rest) =>
    match rest with
    | [] => simp [SafetyChecker.paramCheck, DeclaredOk]
    | [hi] =>
      unfold SpecWF at hwf
      obtain ⟨h, rfl⟩ := hwf
      match v with
      | .num n =>
        by_cases hlo : lo ≤ n <;>
          simp [SafetyChecker.paramCheck, SafetyChecker.pyLe, DeclaredOk, hlo]
      | .str s =>
        simp [SafetyChecker.paramCheck, DeclaredOk]
    | hi1 :: hi2 :: t => simp [SafetyChecker.paramCheck, DeclaredOk]
  | .vlist (Value.str s :: rest) =>
    simp [SafetyChecker.paramCheck, DeclaredOk]
  | .vstr fmt =>
    by_cases hf : fmt = "HH:MM" <;>
      simp [SafetyChecker.paramCheck, DeclaredOk, hf]
  | .other => simp [SafetyChecker.paramCheck, DeclaredOk]

/-- Unfolding `checkParams` on an undeclared head parameter. -/
theorem checkParams_cons_none (avail : List (String × ParamSpec))
    (name : String) (v : Value) (rest : List (String × Value))
    (hd : dictGet avail name = Option.none) :
    SafetyChecker.checkParams avail ((name, v) :: rest) =
      SafetyChecker.checkParams avail rest := by
  conv_lhs => rw [SafetyChecker.checkParams]
  rw [hd]

/-- Unfolding `checkParams` on a declared head parameter. -/
theorem checkParams_cons_some (avail : List (String × ParamSpec))
    (name : String) (v : Value) (rest : List (String × Value)) (spec : ParamSpec)
    (hd : dictGet avail name = some spec) :
    SafetyChecker.checkParams avail ((name, v) :: rest) =
      match SafetyChecker.paramCheck spec v with
      | Option.none => Option.none
      | some false => some false
      | some true => SafetyChecker.checkParams avail rest := by
  conv_lhs => rw [SafetyChecker.checkParams]
  rw [hd]

/-- The parameter loop accepts iff every supplied parameter that is
declared satisfies its declared constraint. -/
theorem checkParams_eq_some_true_iff (avail : List (String × ParamSpec))
    (hwf : ∀ p ∈ avail, SpecWF p.2) :
    ∀ params : List (String × Value),
      SafetyChecker.checkParams avail params = some true ↔
        ∀ pv ∈ params, ∀ spec, dictGet avail pv.1 = some spec → DeclaredOk spec pv.2
  | [] => by simp [SafetyChecker.checkParams]
  | (name, v) :: rest => by
    cases hd : dictGet avail name with
    | none =>
      rw [checkParams_cons_none avail name v rest hd,
        checkParams_eq_some_true_iff avail hwf rest]
      constructor
      · intro hall pv hpv spec hspec
        rcases List.mem_cons.mp hpv with heq | hmem
        · subst heq; rw [hd] at hspec; cases hspec
        · exact hall pv hmem spec hspec
      · intro hall pv hpv spec hspec
        exact hall pv (List.mem_cons_of_mem _ hpv) spec hspec
    | some spec =>
      have hwfs : SpecWF spec := by
        obtain ⟨pr, hfind, hsnd⟩ := Option.map_eq_some'.mp hd
        have hmem := List.mem_of_find?_eq_some hfind
        exact hsnd ▸ hwf pr hmem
      rw [checkParams_cons_some avail name v rest spec hd]
      cases hpc : SafetyChecker.paramCheck spec v with
      | none =>
        show Option.none = some true ↔ _
        constructor
        · intro hcontra; exact Option.noConfusion hcontra
        · intro hall
          have hok : DeclaredOk spec v := hall (name, v) (List.mem_cons_self _ _) spec hd
          have hpt := (paramCheck_eq_some_true_iff spec v hwfs).mpr hok
          rw [hpc] at hpt; exact Option.noConfusion hpt
      | some b =>
        cases b with
        | false =>
          show some false = some true ↔ _
          constructor
          · intro hcontra; exact Bool.noConfusion (Option.some.inj hcontra)
          · intro hall
            have hok : DeclaredOk spec v := hall (name, v) (List.mem_cons_self _ _) spec hd
            have hpt := (paramCheck_eq_some_true_iff spec v hwfs).mpr hok
            rw [hpc] at hpt
            exact Bool.noConfusion (Option.some.inj hpt)
        | true =>
          show SafetyChecker.checkParams avail rest = some true ↔ _
          rw [checkParams_eq_some_true_iff avail hwf rest]
          constructor
          · intro hall pv hpv spec2 hspec
            rcases List.mem_cons.mp hpv with heq | hmem
            · subst heq
              rw [hd] at hspec
              cases hspec
              exact (paramCheck_eq_some_true_iff spec v hwfs).mp hpc
            · exact hall pv hmem spec2 hspec
          · intro hall pv hpv spec2 hspec
            exact hall pv (List.mem_cons_of_mem _ hpv) spec2 hspec

/-- Branches of the Rule Engine that emit a candidate of a different
action type contribute nothing to the `turn_off_room_lights` filter. -/
theorem filter_turnoff_nil (cond : Prop) [Decidable cond] (l : List String)
    (ty r : String) (hty : ty ≠ "turn_off_room_lights") :
    List.filter (fun c => decide (c.action_type = "turn_off_room_lights"))
      (if cond then
        (if l.isEmpty = true then []
         else [{ action_type := ty, target_devices := l, reason := r : Candidate }])
       else []) = [] := by
  split
  · split
    · rfl
    · simp [hty]
  · rfl

/-!
## Claim theorems
-/

/-- C2: an Action Command whose device id contains a blacklisted substring
("router", "refrigerator", "security_camera") and which targets a device
present in the Device State set is judged unsafe by the Policy Validator,
regardless of capabilities, supported commands, or parameter values. -/
theorem claim2_blacklist_absolute (a : ActionCommand) (devices : List DeviceState)
    (hmem : ∃ d ∈ devices, d.id = a.device_id)
    (hbad : ∃ bad ∈ SafetyChecker.SAFE_DEVICE_BLACKLIST, strContains a.device_id bad = true) :
    SafetyChecker.is_action_safe a devices = some false := by
  have hsome : (SafetyChecker.lookupDevice devices a.device_id).isSome :=
    (lookupDevice_isSome_iff devices a.device_id).mpr hmem
  obtain ⟨dev, hdev⟩ := Option.isSome_iff_exists.mp hsome
  have hany : SafetyChecker.SAFE_DEVICE_BLACKLIST.any
      (fun bad => strContains a.device_id bad) = true := by
    obtain ⟨bad, hb, hc⟩ := hbad
    exact List.any_eq_true.mpr ⟨bad, hb, hc⟩
  unfold SafetyChecker.is_action_safe
  rw [hdev, hany]
  simp

/-- Witness for C2: a fully capable "home_router_1" device still yields
`some false` because its id contains "router". -/
theorem claim2_blacklist_absolute_witness :
    SafetyChecker.is_action_safe
      { device_id := "home_router_1", command := "off", params := [] }
      [{ id := "home_router_1", «on» := true,
         capabilities := some { functions := ["on", "off"], parameters := [] } }] =
      some false :=
  claim2_blacklist_absolute _ _ (by decide) (by decide)

/-- C3: with cooldown `C` and no prior allowed suggestion, `allow` returns
true at `t1` and records `t1`; a call at `t2` with `t2 - t1 < C` returns
false and leaves the timestamp unchanged; a call at `t3` with
`t3 - t1 ≥ C` (measured from the last ALLOWED call, `t1`) returns true and
updates the timestamp to `t3`. -/
theorem claim3_throttle_cooldown (C t1 t2 t3 : Int)
    (h2 : t2 - t1 < C) (h3 : C ≤ t3 - t1) :
    ProactivityBudget.allow ⟨C, Option.none⟩ t1 = (true, ⟨C, some t1⟩) ∧
    ProactivityBudget.allow ⟨C, some t1⟩ t2 = (false, ⟨C, some t1⟩) ∧
    ProactivityBudget.allow ⟨C, some t1⟩ t3 = (true, ⟨C, some t3⟩) := by
  refine ⟨rfl, ?_, ?_⟩
  · unfold ProactivityBudget.allow
    simp only []
    rw [if_neg (not_le.mpr h2)]
  · unfold ProactivityBudget.allow
    simp only []
    rw [if_pos h3]

/-- Witness for C3 at cooldown 10, calls at times 0, 5, 12. -/
theorem claim3_throttle_cooldown_witness :
    ProactivityBudget.allow ⟨10, Option.none⟩ 0 = (true, ⟨10, some 0⟩) ∧
    ProactivityBudget.allow ⟨10, some 0⟩ 5 = (false, ⟨10, some 0⟩) ∧
    ProactivityBudget.allow ⟨10, some 0⟩ 12 = (true, ⟨10, some 12⟩) :=
  claim3_throttle_cooldown 10 0 5 12 (by decide) (by decide)

/-- C6: when the Policy Validator rejects the suggestion's Action Command,
step 5 of `process_context` forces `should_suggest := false` and overwrites
the reason, while the action, suggestion text, and confidence of the
suggestion stay unchanged. -/
theorem claim6_safety_rejection_frame (s : SuggestionSchema)
    (devices : List DeviceState) (a : ActionCommand)
    (ha : s.action = some a)
    (hviol : SafetyChecker.is_action_safe a devices = some false) :
    ∃ r, ThinkOrchestrator.apply_safety s devices = some r ∧
      r.should_suggest = false ∧
      r.reason = some "Action failed safety check." ∧
      r.action = s.action ∧
      r.suggestion_text = s.suggestion_text ∧
      r.confidence = s.confidence := by
  refine ⟨{ s with should_suggest := false,
                   reason := some "Action failed safety check." }, ?_, rfl, rfl, rfl, rfl, rfl⟩
  simp [ThinkOrchestrator.apply_safety, ha, hviol]

/-- Witness for C6: an out-of-range brightness command is suppressed but the
action, text and confidence fields survive. -/
theorem claim6_safety_rejection_frame_witness :
    ∃ r, ThinkOrchestrator.apply_safety
        { should_suggest := true,
          suggestion_text := some "Dim the light?",
          reason := some "user likes dim light",
          action := some { device_id := "smart_light_1", command := "set_brightness",
                           params := [("brightness", .num 500)] },
          confidence := some (9/10) }
        [{ id := "smart_light_1", «on» := true,
           capabilities := some { functions := ["set_brightness"],
                                  parameters := [("brightness", .vlist [.num 0, .num 100])] } }] =
        some r ∧
      r.should_suggest = false ∧
      r.reason = some "Action failed safety check." ∧
      r.action = some { device_id := "smart_light_1", command := "set_brightness",
                        params := [("brightness", .num 500)] } ∧
      r.suggestion_text = some "Dim the light?" ∧
      r.confidence = some (9/10) :=
  claim6_safety_rejection_frame _ _ _ rfl (by decide)

/-- C7: in steps 5–6 of `process_context`, the Proactivity Throttle is
consulted only when the post-safety suggestion still has
`should_suggest = true`; if the suggestion was already denied, `allow()` is
not evaluated (short-circuit) and the budget state is returned unchanged. -/
theorem claim7_budget_consulted_only_if_suggesting
    (call : ThinkOrchestrator.Pass2Call) (devices : List DeviceState)
    (s : SuggestionSchema) (b : ProactivityBudget) (now : Int)
    (_hs : ThinkOrchestrator.apply_safety
      (ThinkOrchestrator.pass2_suggestion call) devices = some s) :
    ((ThinkOrchestrator.apply_budget s b now).2.2 = true → s.should_suggest = true) ∧
    (s.should_suggest = false →
      ThinkOrchestrator.apply_budget s b now = (s, b, false)) := by
  constructor
  · intro hc
    by_contra hfalse
    have hss : s.should_suggest = false := by
      cases h : s.should_suggest
      · rfl
      · exact absurd h hfalse
    unfold ThinkOrchestrator.apply_budget at hc
    rw [hss] at hc
    simp at hc
  · intro hss
    unfold ThinkOrchestrator.apply_budget
    rw [hss]
    simp

/-- Witness for C7: a pass-2 parse-failure deny reaches step 6 with
`should_suggest = false`; the budget state `⟨10, none⟩` is untouched and
`allow()` is never evaluated. -/
theorem claim7_budget_consulted_only_if_suggesting_witness :
    ((ThinkOrchestrator.apply_budget
        { should_suggest := false, reason := some "llm_parse_failed" }
        ⟨10, Option.none⟩ 0).2.2 = true →
      SuggestionSchema.should_suggest
        { should_suggest := false, reason := some "llm_parse_failed" } = true) ∧
    (SuggestionSchema.should_suggest
        { should_suggest := false, reason := some "llm_parse_failed" } = false →
      ThinkOrchestrator.apply_budget
        { should_suggest := false, reason := some "llm_parse_failed" }
        ⟨10, Option.none⟩ 0 =
        ({ should_suggest := false, reason := some "llm_parse_failed" },
         ⟨10, Option.none⟩, false)) :=
  claim7_budget_consulted_only_if_suggesting (.returned .raised) [] _ ⟨10, Option.none⟩ 0 rfl

/-- C9: calling `add_document` with `metadata` omitted/`None` on a
non-duplicate text raises `TypeError` (subscripting the still-`None`
`safe_meta`) before any document is stored: the collection is unchanged. -/
theorem claim9_add_document_none_metadata (addFails : Bool)
    (docId now text : String) (col : ChromaStore.Collection) :
    ChromaStore.add_document false addFails docId now text Option.none col =
      (.error .typeError, col) := rfl

/-- C10: a declared parameter whose spec list starts with a number but does
not have length exactly 2 is not bounds-checked: the per-parameter check
accepts every supplied value. -/
theorem claim10_malformed_numeric_spec_skipped (lo : Int) (rest : List Value)
    (v : Value) (hlen : (Value.num lo :: rest).length ≠ 2) :
    SafetyChecker.paramCheck (.vlist (Value.num lo :: rest)) v = some true := by
  match rest with
  | [] => rfl
  | [hi] => simp at hlen
  | _ :: _ :: _ => rfl

/-- Witness for C10: spec `[5]` (length 1) lets the absurd value 1000000
through, and spec `[0, 50, 100]` (length 3) lets a string through. -/
theorem claim10_malformed_numeric_spec_skipped_witness :
    SafetyChecker.paramCheck (.vlist [.num 5]) (.num 1000000) = some true :=
  claim10_malformed_numeric_spec_skipped 5 [] (.num 1000000) (by decide)

/-- Counterexample to C5 as stated: when the pass-2 chain fails inside
`pass2_structured` (parse/schema failure of the structured output), the
replacement deny carries the SCHEMA-DEFAULT confidence 0.5 — the fallback
dict `should_suggest: False, reason: "llm_parse_failed"` has no confidence
key — so the claim's "confidence is 0.0" is false for that case. -/
theorem claim5_counterexample :
    ThinkOrchestrator.pass2_suggestion (.returned .raised) =
      { should_suggest := false, suggestion_text := Option.none,
        reason := some "llm_parse_failed", action := Option.none,
        confidence := some (1/2) } ∧
    (ThinkOrchestrator.pass2_suggestion (.returned .raised)).confidence ≠ some 0 := by
  constructor
  · rfl
  · intro h
    simp only [ThinkOrchestrator.pass2_suggestion, LangchainLLMClient.pass2_structured,
      SuggestionSchema.validate] at h
    rw [Option.some_inj] at h
    norm_num at h

/-- C5 as amended: every pass-2 failure replaces the suggestion with a
hard-coded deny (`should_suggest = false`) whose reason is a fixed
identifier distinguishing the cases; confidence is 0.0 for the
validation-failure and call-failure denies, but the parse-failure deny
built inside `pass2_structured` omits confidence and therefore gets the
schema default 0.5. -/
theorem claim5_pass2_failure_denies (s : SuggestionSchema) (q : ℚ)
    (hq : s.confidence = some q) (hbad : ¬(0 ≤ q ∧ q ≤ 1)) :
    ThinkOrchestrator.pass2_suggestion (.returned .raised) =
      { should_suggest := false, reason := some "llm_parse_failed",
        confidence := some (1/2) } ∧
    ThinkOrchestrator.pass2_suggestion .raised =
      { should_suggest := false, reason := some "llm_error",
        confidence := some 0 } ∧
    ThinkOrchestrator.pass2_suggestion (.returned (.parsed s)) =
      { should_suggest := false, reason := some "validation_failed",
        confidence := some 0 } := by
  refine ⟨rfl, rfl, ?_⟩
  simp only [ThinkOrchestrator.pass2_suggestion, LangchainLLMClient.pass2_structured,
    SuggestionSchema.validate, hq]
  rw [if_neg hbad]

/-- Witness for amended C5: a parsed suggestion carrying confidence 2 is
replaced by the `validation_failed` deny. -/
theorem claim5_pass2_failure_denies_witness :
    ThinkOrchestrator.pass2_suggestion (.returned .raised) =
      { should_suggest := false, reason := some "llm_parse_failed",
        confidence := some (1/2) } ∧
    ThinkOrchestrator.pass2_suggestion .raised =
      { should_suggest := false, reason := some "llm_error",
        confidence := some 0 } ∧
    ThinkOrchestrator.pass2_suggestion
        (.returned (.parsed { should_suggest := true, confidence := some 2 })) =
      { should_suggest := false, reason := some "validation_failed",
        confidence := some 0 } :=
  claim5_pass2_failure_denies { should_suggest := true, confidence := some 2 } 2
    rfl (by norm_num)

/-- Counterexample to C8 as stated: with the Chroma `collection.add` call
failing on a non-duplicate rejected-suggestion write,
`store_user_confirmation` returns the re-raised error to its caller — the
write failure is NOT absorbed. -/
theorem claim8_counterexample :
    ThinkOrchestrator.store_user_confirmation false true "doc0" "2026-01-01T00:00:00"
      { should_suggest := false, suggestion_text := some "turn off the light?",
        reason := some "user left the room" }
      { timestamp := 0 } false ⟨[]⟩ =
      (.error ChromaStore.PyError.chromaError, ⟨[]⟩) := rfl

/-- C8 as amended: a memory-store write failure during feedback recording
is logged and then RE-RAISED by `add_document` (leaving the collection
unchanged), and `store_user_confirmation` does not catch it, so the
exception propagates to its caller. -/
theorem claim8_write_failure_reraised (docId now text : String)
    (m : List (String × ChromaStore.MetaValue)) (hm : m ≠ [])
    (col : ChromaStore.Collection) (suggestion : SuggestionSchema)
    (ctx : ContextPacket) :
    ChromaStore.add_document false true docId now text (some m) col =
      (.error .chromaError, col) ∧
    ThinkOrchestrator.store_user_confirmation false true docId now
      suggestion ctx false col = (.error .chromaError, col) := by
  constructor
  · have hne : m.isEmpty = false := by
      cases m with
      | nil => exact absurd rfl hm
      | cons x xs => rfl
    unfold ChromaStore.add_document
    simp [hne]
  · unfold ThinkOrchestrator.store_user_confirmation
    cases hb : ctx.biometric <;> rfl

/-- Witness for amended C8. -/
theorem claim8_write_failure_reraised_witness :
    ChromaStore.add_document false true "doc1" "2026-01-01T00:00:00"
      "User REJECTED this suggestion: dim the lights"
      (some [("type", ChromaStore.MetaValue.str "rejected_action")]) ⟨[]⟩ =
      (.error .chromaError, ⟨[]⟩) ∧
    ThinkOrchestrator.store_user_confirmation false true "doc1" "2026-01-01T00:00:00"
      { should_suggest := false, suggestion_text := some "dim the lights",
        reason := some "testing" }
      { timestamp := 0 } false ⟨[]⟩ = (.error .chromaError, ⟨[]⟩) :=
  claim8_write_failure_reraised "doc1" "2026-01-01T00:00:00"
    "User REJECTED this suggestion: dim the lights"
    [("type", ChromaStore.MetaValue.str "rejected_action")] (by decide) ⟨[]⟩
    { should_suggest := false, suggestion_text := some "dim the lights",
      reason := some "testing" }
    { timestamp := 0 }

/-- C1: on devices with well-formed (devices.json-shaped) capability
specs, the Policy Validator returns safe iff the device exists, its id
contains no blacklisted substring, its capability spec is truthy, the
command is among the supported functions, and every supplied parameter
declared in the spec satisfies its declared constraint. -/
theorem claim1_policy_validator_iff (action : ActionCommand) (devices : List DeviceState)
    (hwf : ∀ d ∈ devices, DeviceWF d) :
    SafetyChecker.is_action_safe action devices = some true ↔ SpecSafe action devices := by
  cases hlook : SafetyChecker.lookupDevice devices action.device_id with
  | none =>
    have hred : SafetyChecker.is_action_safe action devices = some false := by
      unfold SafetyChecker.is_action_safe
      rw [hlook]
    rw [hred]
    constructor
    · intro h; exact Bool.noConfusion (Option.some.inj h)
    · rintro ⟨⟨d, hd, hid⟩, -, -⟩
      have hs : (SafetyChecker.lookupDevice devices action.device_id).isSome :=
        (lookupDevice_isSome_iff devices action.device_id).mpr ⟨d, hd, hid⟩
      rw [hlook] at hs
      exact Bool.noConfusion hs
  | some dev =>
    have hred : SafetyChecker.is_action_safe action devices =
        (if SafetyChecker.SAFE_DEVICE_BLACKLIST.any
            (fun bad => strContains action.device_id bad) then some false
         else
           match dev.capabilities with
           | Option.none => some false
           | some caps =>
             if action.command ∈ caps.functions then
               SafetyChecker.checkParams caps.parameters action.params
             else some false) := by
      unfold SafetyChecker.is_action_safe
      rw [hlook]
    rw [hred]
    by_cases hbl : SafetyChecker.SAFE_DEVICE_BLACKLIST.any
        (fun bad => strContains action.device_id bad) = true
    · rw [if_pos hbl]
      constructor
      · intro h; exact Bool.noConfusion (Option.some.inj h)
      · rintro ⟨-, hbls, -⟩
        obtain ⟨bad, hmem, hcon⟩ := List.any_eq_true.mp hbl
        rw [hbls bad hmem] at hcon
        exact Bool.noConfusion hcon
    · rw [if_neg hbl]
      cases hcaps : dev.capabilities with
      | none =>
        constructor
        · intro h; exact Bool.noConfusion (Option.some.inj h)
        · rintro ⟨-, -, dev2, caps2, hlook2, hcaps2, -⟩
          rw [hlook] at hlook2
          obtain rfl : dev = dev2 := Option.some.inj hlook2
          rw [hcaps] at hcaps2
          exact Option.noConfusion hcaps2
      | some caps =>
        show (if action.command ∈ caps.functions then
            SafetyChecker.checkParams caps.parameters action.params
          else some false) = some true ↔ SpecSafe action devices
        by_cases hcmd : action.command ∈ caps.functions
        · rw [if_pos hcmd]
          have hwfp : ∀ p ∈ caps.parameters, SpecWF p.2 := by
            obtain ⟨hdev_mem, -⟩ := lookupDevice_mem hlook
            exact hwf dev hdev_mem caps hcaps
          rw [checkParams_eq_some_true_iff caps.parameters hwfp action.params]
          constructor
          · intro hall
            refine ⟨?_, ?_, dev, caps, hlook, hcaps, hcmd, hall⟩
            · have hs := lookupDevice_isSome_iff devices action.device_id
              rw [hlook] at hs
              exact hs.mp rfl
            · intro bad hmem
              cases hcc : strContains action.device_id bad
              · rfl
              · exact absurd (List.any_eq_true.mpr ⟨bad, hmem, hcc⟩) hbl
          · rintro ⟨-, -, dev2, caps2, hlook2, hcaps2, -, hall⟩
            rw [hlook] at hlook2
            obtain rfl : dev = dev2 := Option.some.inj hlook2
            rw [hcaps] at hcaps2
            obtain rfl : caps = caps2 := Option.some.inj hcaps2
            exact hall
        · rw [if_neg hcmd]
          constructor
          · intro h; exact Bool.noConfusion (Option.some.inj h)
          · rintro ⟨-, -, dev2, caps2, hlook2, hcaps2, hcmd2, -⟩
            rw [hlook] at hlook2
            obtain rfl : dev = dev2 := Option.some.inj hlook2
            rw [hcaps] at hcaps2
            obtain rfl : caps = caps2 := Option.some.inj hcaps2
            exact (hcmd hcmd2).elim

/-- Witness for C1: a `set_temperature` action exercising the numeric
range, string enum, `HH:MM` format, and undeclared-parameter cases is
accepted. -/
theorem claim1_policy_validator_iff_witness :
    SafetyChecker.is_action_safe
      { device_id := "smart_ac_1", command := "set_temperature",
        params := [("temperature", .num 24), ("mode", .str "cool"),
                   ("schedule_time", .str "07:30"), ("swing", .str "auto")] }
      [{ id := "smart_ac_1", «on» := false,
         capabilities := some
           { functions := ["set_mode", "set_temperature", "eco_mode", "schedule"],
             parameters :=
               [("mode", .vlist [.str "cool", .str "heat", .str "dry", .str "fan"]),
                ("temperature", .vlist [.num 16, .num 30]),
                ("schedule_time", .vstr "HH:MM")] } }] = some true := by
  refine (claim1_policy_validator_iff _ _ ?_).mpr ⟨?_, ?_, ?_⟩
  · intro d hd
    rw [List.mem_singleton] at hd
    subst hd
    intro caps hcaps p hp
    cases hcaps
    simp only [List.mem_cons, List.not_mem_nil, or_false] at hp
    rcases hp with rfl | rfl | rfl
    · exact trivial
    · exact ⟨30, rfl⟩
    · exact trivial
  · exact ⟨_, List.mem_singleton.mpr rfl, rfl⟩
  · intro bad hmem
    fin_cases hmem <;> rfl
  · refine ⟨_, _, rfl, rfl, by decide, ?_⟩
    intro p hp spec hspec
    simp only [List.mem_cons, List.not_mem_nil, or_false] at hp
    rcases hp with rfl | rfl | rfl | rfl
    · rw [show dictGet
          [("mode", ParamSpec.vlist [.str "cool", .str "heat", .str "dry", .str "fan"]),
           ("temperature", ParamSpec.vlist [.num 16, .num 30]),
           ("schedule_time", ParamSpec.vstr "HH:MM")] "temperature" =
          some (ParamSpec.vlist [.num 16, .num 30]) from rfl] at hspec
      cases hspec
      exact ⟨by decide, by decide⟩
    · rw [show dictGet
          [("mode", ParamSpec.vlist [.str "cool", .str "heat", .str "dry", .str "fan"]),
           ("temperature", ParamSpec.vlist [.num 16, .num 30]),
           ("schedule_time", ParamSpec.vstr "HH:MM")] "mode" =
          some (ParamSpec.vlist [.str "cool", .str "heat", .str "dry", .str "fan"]) from rfl] at hspec
      cases hspec
      show Value.str "cool" ∈ _
      exact List.mem_cons_self _ _
    · rw [show dictGet
          [("mode", ParamSpec.vlist [.str "cool", .str "heat", .str "dry", .str "fan"]),
           ("temperature", ParamSpec.vlist [.num 16, .num 30]),
           ("schedule_time", ParamSpec.vstr "HH:MM")] "schedule_time" =
          some (ParamSpec.vstr "HH:MM") from rfl] at hspec
      cases hspec
      intro _
      rfl
    · rw [show dictGet
          [("mode", ParamSpec.vlist [.str "cool", .str "heat", .str "dry", .str "fan"]),
           ("temperature", ParamSpec.vlist [.num 16, .num 30]),
           ("schedule_time", ParamSpec.vstr "HH:MM")] "swing" =
          Option.none from rfl] at hspec
      exact Option.noConfusion hspec

/-- Counterexample to C4 as stated: with the on-lights listed in the order
`light_b`, `light_a`, the emitted candidate's target list keeps the device
order (`["light_b", "light_a"]`), which differs from the sorted set
`["light_a", "light_b"]` the claim asserts. -/
theorem claim4_counterexample :
    DecisionGraph.candidates_from_context
      { timestamp := 0,
        environment := some { occupancy := some "vacant" },
        devices :=
          [{ id := "light_b", «on» := true },
           { id := "light_a", «on» := true }] } =
      [{ action_type := "turn_off_room_lights",
         target_devices := ["light_b", "light_a"],
         reason := "room appears empty and lights are on" }] ∧
    specSortedLightTargets
      { timestamp := 0,
        environment := some { occupancy := some "vacant" },
        devices :=
          [{ id := "light_b", «on» := true },
           { id := "light_a", «on» := true }] } =
      ["light_a", "light_b"] ∧
    (["light_b", "light_a"] : List String) ≠ ["light_a", "light_b"] :=
  ⟨by decide, by decide, by decide⟩

/-- C4 as amended: for a context with vacant occupancy and a non-empty set
of on-lights, the Rule Engine emits exactly one `turn_off_room_lights`
candidate, whose target list is the ids of the matching devices in DEVICE
LIST ORDER (not sorted, not deduplicated). -/
theorem claim4_vacant_lights_candidate (ctx : ContextPacket) (env : EnvironmentContext)
    (henv : ctx.environment = some env) (hocc : env.occupancy = some "vacant")
    (hne : (ctx.devices.filter (fun d => d.«on» && strContains d.id "light")).map (·.id) ≠ []) :
    (DecisionGraph.candidates_from_context ctx).filter
        (fun c => decide (c.action_type = "turn_off_room_lights")) =
      [{ action_type := "turn_off_room_lights",
         target_devices :=
           (ctx.devices.filter (fun d => d.«on» && strContains d.id "light")).map (·.id),
         reason := "room appears empty and lights are on" }] := by
  have hie : ((ctx.devices.filter (fun d => d.«on» && strContains d.id "light")).map (·.id)).isEmpty = false := by
    cases h : (ctx.devices.filter (fun d => d.«on» && strContains d.id "light")).map (·.id) with
    | nil => exact absurd h hne
    | cons a l => rfl
  obtain ⟨ts, bio, loc, sched, envf, devs, raw⟩ := ctx
  simp only at henv hocc hne hie ⊢
  subst henv
  unfold DecisionGraph.candidates_from_context
  simp only [hocc, hie]
  rw [List.filter_append, List.filter_append]
  rcases bio with _ | bio
  · rcases loc with _ | loc <;> simp
  · rcases loc with _ | loc
    · rw [filter_turnoff_nil _ _ _ _ (by decide)]
      simp
    · rw [filter_turnoff_nil _ _ _ _ (by decide), filter_turnoff_nil _ _ _ _ (by decide)]
      simp

/-- Witness for amended C4, at the counterexample's context. -/
theorem claim4_vacant_lights_candidate_witness :
    (DecisionGraph.candidates_from_context
      { timestamp := 0,
        environment := some { occupancy := some "vacant" },
        devices :=
          [{ id := "light_b", «on» := true },
           { id := "light_a", «on» := true }] }).filter
        (fun c => decide (c.action_type = "turn_off_room_lights")) =
      [{ action_type := "turn_off_room_lights",
         target_devices := ["light_b", "light_a"],
         reason := "room appears empty and lights are on" }] :=
  claim4_vacant_lights_candidate _ { occupancy := some "vacant" } rfl rfl (by decide)
